import Mathlib

/-!
# Verification of the `justus` room synchronization server

Shallow embedding of `src/party/server.ts` (class `JustUsServer`).

Modelling conventions:
* JS `null` is `Option.none`; JS string truthiness (`if (s)`) is `s ≠ ""`.
* Connection ids are `String`; the set of currently live connections
  (`room.getConnections()`) is passed explicitly as `conns : List String`.
* JS objects used as string-keyed records (`answers`, `rewriteAnswers`) are
  insertion-ordered association lists, as JS object keys are.
* JS numbers in message payloads are modelled as `Int`; `Date.now()`
  timestamps as `Nat` (milliseconds).
* The arbitrary `unknown` payload of an answer (`data`) is modelled opaquely
  as `String`; a JSON `null` payload is `Option.none`.
* Outbound `connection.send` / `room.broadcast` / `connection.close` calls
  are collected into a list of `Send` events, in program order.
-/

/-- `type ActPhase = 'waiting' | 'active' | 'responding' | 'revealing' | 'complete'` -/
inductive ActPhase where
  | waiting
  | active
  | responding
  | revealing
  | complete
deriving DecidableEq

/-- `type PlayerId = 'p1' | 'p2'` -/
inductive PlayerId where
  | p1
  | p2
deriving DecidableEq

/-- Opaque model of the act-defined `unknown` answer payload. -/
abbrev Data : Type := String

/-- One entry of `answers[act]`: `{ p1: unknown; p2: unknown }` (null-able). -/
structure AnswerPair where
  p1 : Option Data
  p2 : Option Data
deriving DecidableEq

/-- Heartbeat record `{ bpm: number; waveform: number[] }`. -/
structure HeartbeatRec where
  bpm : Int
  waveform : List Int
deriving DecidableEq

/-- One entry of `heatChoices`. -/
structure HeatChoiceRec where
  player : PlayerId
  round : Int
  choice : String
  answer : Option String
deriving DecidableEq

/-- One entry of `lieDetectorGuesses`. -/
structure LieGuessRec where
  player : PlayerId
  round : Int
  guess : Int
  hesitationMs : Int
deriving DecidableEq

/-- A drawing stroke: a list of `{x, y}` points. -/
abbrev Stroke : Type := List (Int × Int)

/-- `interface RoomState` of `server.ts`, with the fixed-key records
(`players`, `drawings`, `starName`, `unsaidMessages`, `heartbeatData`,
`photos`) flattened into one field per key, and the `Set<PlayerId>`
`readyPlayers` flattened into one membership flag per possible member. -/
structure RoomState where
  playersP1 : Option String
  playersP2 : Option String
  currentAct : String
  actPhase : ActPhase
  readyP1 : Bool
  readyP2 : Bool
  answers : List (String × AnswerPair)
  drawingsP1 : List Stroke
  drawingsP2 : List Stroke
  starNameP1 : String
  starNameP2 : String
  unsaidP1 : String
  unsaidP2 : String
  rewriteAnswers : List (Int × (String × String))
  heartbeatP1 : Option HeartbeatRec
  heartbeatP2 : Option HeartbeatRec
  heatChoices : List HeatChoiceRec
  lieDetectorGuesses : List LieGuessRec
  photosP1 : Option String
  photosP2 : Option String
  startedAt : String
  completedAt : Option String
deriving DecidableEq

/-- `RATE_LIMIT_WINDOW_MS = 1000` -/
def RATE_LIMIT_WINDOW_MS : Nat := 1000

/-- `RATE_LIMIT_MAX_MESSAGES = 60` -/
def RATE_LIMIT_MAX_MESSAGES : Nat := 60

/-- `MAX_MESSAGE_SIZE = 10 * 1024` -/
def MAX_MESSAGE_SIZE : Nat := 10 * 1024

/-- `MAX_PHOTO_SIZE = 1 * 1024 * 1024` -/
def MAX_PHOTO_SIZE : Nat := 1 * 1024 * 1024

/-- `DISCONNECT_TIMEOUT_MS = 5 * 60 * 1000` -/
def DISCONNECT_TIMEOUT_MS : Nat := 5 * 60 * 1000

/-- `DEFAULT_ACT_ORDER` -/
def DEFAULT_ACT_ORDER : List String :=
  ["invitation", "the_lock", "know_me", "lie_detector", "through_your_eyes",
   "heartbeat", "the_unsaid", "rewrite_history", "come_closer", "heat",
   "our_moment", "the_promise", "the_glitch"]

/-- `createInitialState()`; `startedAt` (a `new Date().toISOString()`) is a
parameter since the clock is ambient. -/
def createInitialState (startedAt : String) : RoomState where
  playersP1 := none
  playersP2 := none
  currentAct := (DEFAULT_ACT_ORDER.get? 0).getD ""
  actPhase := .waiting
  readyP1 := false
  readyP2 := false
  answers := []
  drawingsP1 := []
  drawingsP2 := []
  starNameP1 := ""
  starNameP2 := ""
  unsaidP1 := ""
  unsaidP2 := ""
  rewriteAnswers := []
  heartbeatP1 := none
  heartbeatP2 := none
  heatChoices := []
  lieDetectorGuesses := []
  photosP1 := none
  photosP2 := none
  startedAt := startedAt
  completedAt := none

/-- Read `this.state.players[player]`. -/
def RoomState.playerConn (s : RoomState) : PlayerId → Option String
  | .p1 => s.playersP1
  | .p2 => s.playersP2

/-- Write `this.state.players[player] = v`. -/
def RoomState.setPlayerConn (s : RoomState) : PlayerId → Option String → RoomState
  | .p1, v => { s with playersP1 := v }
  | .p2, v => { s with playersP2 := v }

/-- Read a slot of `this.state.photos`. -/
def RoomState.photo (s : RoomState) : PlayerId → Option String
  | .p1 => s.photosP1
  | .p2 => s.photosP2

/-- Write a slot of `this.state.photos`. -/
def RoomState.setPhoto (s : RoomState) : PlayerId → Option String → RoomState
  | .p1, v => { s with photosP1 := v }
  | .p2, v => { s with photosP2 := v }

/-- Read a slot of `this.state.unsaidMessages`. -/
def RoomState.unsaid (s : RoomState) : PlayerId → String
  | .p1 => s.unsaidP1
  | .p2 => s.unsaidP2

/-- Write a slot of `this.state.unsaidMessages`. -/
def RoomState.setUnsaid (s : RoomState) : PlayerId → String → RoomState
  | .p1, v => { s with unsaidP1 := v }
  | .p2, v => { s with unsaidP2 := v }

/-- `this.state.readyPlayers.has(player)`. -/
def RoomState.readyHas (s : RoomState) : PlayerId → Bool
  | .p1 => s.readyP1
  | .p2 => s.readyP2

/-- `this.state.readyPlayers.add(player)` (a set: re-adding is absorbed). -/
def RoomState.readyAdd (s : RoomState) : PlayerId → RoomState
  | .p1 => { s with readyP1 := true }
  | .p2 => { s with readyP2 := true }

/-- `this.state.readyPlayers = new Set()`. -/
def RoomState.readyClear (s : RoomState) : RoomState :=
  { s with readyP1 := false, readyP2 := false }

/-- Read a slot of an `AnswerPair`. -/
def AnswerPair.get (a : AnswerPair) : PlayerId → Option Data
  | .p1 => a.p1
  | .p2 => a.p2

/-- Write a slot of an `AnswerPair`. -/
def AnswerPair.set (a : AnswerPair) : PlayerId → Option Data → AnswerPair
  | .p1, v => { a with p1 := v }
  | .p2, v => { a with p2 := v }

/-- Lookup `answers[act]` in the insertion-ordered record. -/
def lookupAnswers (l : List (String × AnswerPair)) (act : String) :
    Option AnswerPair :=
  (l.find? (fun e => e.1 = act)).map (fun e => e.2)

/-- `answers[act] = pair`: replace in place when the key exists, else append
(JS object key-insertion order). -/
def storeAnswers (l : List (String × AnswerPair)) (act : String)
    (pair : AnswerPair) : List (String × AnswerPair) :=
  if l.any (fun e => e.1 = act) then
    l.map (fun e => if e.1 = act then (act, pair) else e)
  else
    l ++ [(act, pair)]

/-- Lookup `rewriteAnswers[memoryIndex]`. -/
def lookupRewrite (l : List (Int × (String × String))) (i : Int) :
    Option (String × String) :=
  (l.find? (fun e => e.1 = i)).map (fun e => e.2)

/-- `rewriteAnswers[memoryIndex] = entry`. -/
def storeRewrite (l : List (Int × (String × String))) (i : Int)
    (entry : String × String) : List (Int × (String × String)) :=
  if l.any (fun e => e.1 = i) then
    l.map (fun e => if e.1 = i then (i, entry) else e)
  else
    l ++ [(i, entry)]

/-- `getPlayerByConnection(connectionId)`. -/
def getPlayerByConnection (s : RoomState) (connectionId : String) :
    Option PlayerId :=
  if s.playersP1 = some connectionId then some .p1
  else if s.playersP2 = some connectionId then some .p2
  else none

/-- `getOtherPlayer(player)`. -/
def getOtherPlayer : PlayerId → PlayerId
  | .p1 => .p2
  | .p2 => .p1

/-- `getStateSnapshot()` result: the `state_sync` frame body. The `players`
sub-record carries liveness booleans (`!== null`), not connection ids.
Note: `photos` is not among its fields. -/
structure Snapshot where
  playersP1 : Bool
  playersP2 : Bool
  currentAct : String
  actPhase : ActPhase
  answers : List (String × AnswerPair)
  starNameP1 : String
  starNameP2 : String
  unsaidP1 : String
  unsaidP2 : String
  rewriteAnswers : List (Int × (String × String))
  heartbeatP1 : Option HeartbeatRec
  heartbeatP2 : Option HeartbeatRec
  heatChoices : List HeatChoiceRec
  startedAt : String
  completedAt : Option String
deriving DecidableEq

/-- `getStateSnapshot()`. -/
def getStateSnapshot (s : RoomState) : Snapshot where
  playersP1 := s.playersP1.isSome
  playersP2 := s.playersP2.isSome
  currentAct := s.currentAct
  actPhase := s.actPhase
  answers := s.answers
  starNameP1 := s.starNameP1
  starNameP2 := s.starNameP2
  unsaidP1 := s.unsaidP1
  unsaidP2 := s.unsaidP2
  rewriteAnswers := s.rewriteAnswers
  heartbeatP1 := s.heartbeatP1
  heartbeatP2 := s.heartbeatP2
  heatChoices := s.heatChoices
  startedAt := s.startedAt
  completedAt := s.completedAt

/-- The `session` body of the `export_data` reply of `handleExport`.
Note: `photos` is not among its fields. -/
structure ExportPayload where
  answers : List (String × AnswerPair)
  drawingsP1 : List Stroke
  drawingsP2 : List Stroke
  starNameP1 : String
  starNameP2 : String
  unsaidP1 : String
  unsaidP2 : String
  rewriteAnswers : List (Int × (String × String))
  heartbeatP1 : Option HeartbeatRec
  heartbeatP2 : Option HeartbeatRec
  heatChoices : List HeatChoiceRec
  lieDetectorGuesses : List LieGuessRec
  startedAt : String
  completedAt : Option String
deriving DecidableEq

/-- The `session` record built by `handleExport`. -/
def exportSession (s : RoomState) : ExportPayload where
  answers := s.answers
  drawingsP1 := s.drawingsP1
  drawingsP2 := s.drawingsP2
  starNameP1 := s.starNameP1
  starNameP2 := s.starNameP2
  unsaidP1 := s.unsaidP1
  unsaidP2 := s.unsaidP2
  rewriteAnswers := s.rewriteAnswers
  heartbeatP1 := s.heartbeatP1
  heartbeatP2 := s.heartbeatP2
  heatChoices := s.heatChoices
  lieDetectorGuesses := s.lieDetectorGuesses
  startedAt := s.startedAt
  completedAt := s.completedAt

/-- Outbound frames (the JSON objects passed to `send`/`broadcast`). -/
inductive OutMsg where
  | error (message : String)
  | playerAssigned (player : PlayerId) (state : Snapshot)
  | partnerConnected (player : PlayerId)
  | bothConnected
  | partnerDisconnected (player : PlayerId)
  | phaseChange (act : String) (phase : ActPhase)
  | partnerReady (act : String)
  | reveal (act : String) (answers : AnswerPair)
  | partnerAnswered (act : String)
  | drawStrokeOut (points : Stroke) (color : String) (player : PlayerId)
  | heartbeatReveal (p1 : HeartbeatRec) (p2 : HeartbeatRec)
  | partnerHeartbeatReady
  | shakeOut (player : PlayerId)
  | typingOut (act : String) (player : PlayerId)
  | proximityOut (distance : Int)
  | photoOut (player : PlayerId) (data : String)
  | heatChoiceOut (player : PlayerId) (round : Int) (choice : String)
      (answer : Option String)
  | starNamed (name : String) (p1Word : String) (p2Word : String)
  | partnerStarWord (player : PlayerId)
  | unsaidReveal (message : String)
  | partnerUnsaidReady
  | rewriteReveal (memoryIndex : Int) (answers : String × String)
  | partnerRewriteReady (memoryIndex : Int)
  | lieDetectorResult (player : PlayerId) (round : Int) (guess : Int)
      (hesitationMs : Int)
  | exportData (session : ExportPayload)
deriving DecidableEq

/-- An output action: a frame written to one connection, a room broadcast,
or a `connection.close()`. -/
inductive Send where
  | toConn (id : String) (m : OutMsg)
  | broadcast (m : OutMsg)
  | close (id : String)
deriving DecidableEq

/-- `sendTo(connectionId, message)`: look the id up among the live
connections; silently do nothing when it is not there. -/
def sendTo (conns : List String) (connectionId : String) (m : OutMsg) :
    List Send :=
  if connectionId ∈ conns then [.toConn connectionId m] else []

/-- `sendToPlayer(player, message)`. -/
def sendToPlayer (conns : List String) (s : RoomState) (player : PlayerId)
    (m : OutMsg) : List Send :=
  match s.playerConn player with
  | some connectionId => sendTo conns connectionId m
  | none => []

/-- `sendToOther(player, message)`. -/
def sendToOther (conns : List String) (s : RoomState) (player : PlayerId)
    (m : OutMsg) : List Send :=
  sendToPlayer conns s (getOtherPlayer player) m

/-- `setPhase(phase)`: mutate `actPhase` and broadcast a `phase_change`. -/
def setPhase (s : RoomState) (phase : ActPhase) : RoomState × List Send :=
  ({ s with actPhase := phase },
   [.broadcast (.phaseChange s.currentAct phase)])

/-- `bothPlayersConnected()`. -/
def bothPlayersConnected (s : RoomState) : Bool :=
  s.playersP1.isSome && s.playersP2.isSome

/-- `type SyncMessage` (the tagged union of inbound frames), plus an
`unknownType` arm for runtime frames whose `type` matches no known case
(they reach `handleMessage`'s `default`). The `join` arm exists in the TS
union but has no `case` in the router, so it also falls to `default`. -/
inductive SyncMessage where
  | join (player : PlayerId)
  | ready (act : String)
  | answer (act : String) (player : PlayerId) (data : Option Data)
  | drawStroke (points : Stroke) (color : String)
  | heartbeatData (bpm : Int) (waveform : List Int)
  | shake (player : PlayerId)
  | typing (act : String) (player : PlayerId)
  | proximity (distance : Int)
  | exportRequest
  | photo (player : PlayerId) (data : String)
  | heatChoice (player : PlayerId) (round : Int) (choice : String)
      (answer : Option String)
  | starWord (player : PlayerId) (word : String)
  | unsaid (player : PlayerId) (message : String)
  | rewriteAnswer (player : PlayerId) (memoryIndex : Int) (answer : String)
  | lieDetectorGuess (player : PlayerId) (round : Int) (guess : Int)
      (hesitationMs : Int)
  | unknownType (t : String)
deriving DecidableEq

/-- `handleReady(player, act)`. -/
def handleReady (conns : List String) (s : RoomState) (player : PlayerId)
    (act : String) : RoomState × List Send :=
  if act ≠ s.currentAct then (s, [])
  else
    let s1 := s.readyAdd player
    if s1.readyHas .p1 && s1.readyHas .p2 then
      setPhase s1.readyClear .active
    else
      (s1, sendToOther conns s1 player (.partnerReady act))

/-- `handleAnswer(player, act, data)`. -/
def handleAnswer (conns : List String) (s : RoomState) (player : PlayerId)
    (act : String) (data : Option Data) : RoomState × List Send :=
  let pair0 := (lookupAnswers s.answers act).getD ⟨none, none⟩
  let pair1 := pair0.set player data
  let s1 := { s with answers := storeAnswers s.answers act pair1 }
  if pair1.p1.isSome && pair1.p2.isSome then
    let (s2, out) := setPhase s1 .revealing
    (s2, out ++ [.broadcast (.reveal act pair1)])
  else
    (s1, sendToOther conns s1 player (.partnerAnswered act))

/-- `handleDrawStroke(player, points, color)`. -/
def handleDrawStroke (conns : List String) (s : RoomState) (player : PlayerId)
    (points : Stroke) (color : String) : RoomState × List Send :=
  let s1 := match player with
    | .p1 => { s with drawingsP1 := s.drawingsP1 ++ [points] }
    | .p2 => { s with drawingsP2 := s.drawingsP2 ++ [points] }
  (s1, sendToOther conns s1 player (.drawStrokeOut points color player))

/-- `handleHeartbeat(player, bpm, waveform)`. -/
def handleHeartbeat (conns : List String) (s : RoomState) (player : PlayerId)
    (bpm : Int) (waveform : List Int) : RoomState × List Send :=
  let s1 := match player with
    | .p1 => { s with heartbeatP1 := some ⟨bpm, waveform⟩ }
    | .p2 => { s with heartbeatP2 := some ⟨bpm, waveform⟩ }
  match s1.heartbeatP1, s1.heartbeatP2 with
  | some h1, some h2 =>
    let (s2, out) := setPhase s1 .revealing
    (s2, out ++ [.broadcast (.heartbeatReveal h1 h2)])
  | _, _ =>
    (s1, sendToOther conns s1 player .partnerHeartbeatReady)

/-- `handlePhoto(player, data)`: relay to the other slot, then record only
the derived marker `'taken'` in `photos[player]`. -/
def handlePhoto (conns : List String) (s : RoomState) (player : PlayerId)
    (data : String) : RoomState × List Send :=
  (s.setPhoto player (some "taken"),
   sendToOther conns s player (.photoOut player data))

/-- `handleHeatChoice(player, round, choice, answer)`. -/
def handleHeatChoice (conns : List String) (s : RoomState) (player : PlayerId)
    (round : Int) (choice : String) (answer : Option String) :
    RoomState × List Send :=
  let s1 := { s with heatChoices := s.heatChoices ++ [⟨player, round, choice, answer⟩] }
  (s1, sendToOther conns s1 player (.heatChoiceOut player round choice answer))

/-- `handleStarWord(player, word)`. -/
def handleStarWord (conns : List String) (s : RoomState) (player : PlayerId)
    (word : String) : RoomState × List Send :=
  let s1 := match player with
    | .p1 => { s with starNameP1 := word }
    | .p2 => { s with starNameP2 := word }
  if s1.starNameP1 ≠ "" && s1.starNameP2 ≠ "" then
    let (s2, out) := setPhase s1 .revealing
    (s2, out ++ [.broadcast (.starNamed (s2.starNameP1 ++ " " ++ s2.starNameP2)
      s2.starNameP1 s2.starNameP2)])
  else
    (s1, sendToOther conns s1 player (.partnerStarWord player))

/-- `handleUnsaid(player, message)`. -/
def handleUnsaid (conns : List String) (s : RoomState) (player : PlayerId)
    (message : String) : RoomState × List Send :=
  let s1 := s.setUnsaid player message
  if s1.unsaidP1 ≠ "" && s1.unsaidP2 ≠ "" then
    let (s2, out) := setPhase s1 .revealing
    (s2, out ++ sendToPlayer conns s2 .p1 (.unsaidReveal s2.unsaidP2)
             ++ sendToPlayer conns s2 .p2 (.unsaidReveal s2.unsaidP1))
  else
    (s1, sendToOther conns s1 player .partnerUnsaidReady)

/-- `handleRewriteAnswer(player, memoryIndex, answer)`. Note: no `setPhase`
call here, only the conditional broadcast. -/
def handleRewriteAnswer (conns : List String) (s : RoomState)
    (player : PlayerId) (memoryIndex : Int) (answer : String) :
    RoomState × List Send :=
  let entry0 := (lookupRewrite s.rewriteAnswers memoryIndex).getD ("", "")
  let entry1 := match player with
    | .p1 => (answer, entry0.2)
    | .p2 => (entry0.1, answer)
  let s1 := { s with rewriteAnswers := storeRewrite s.rewriteAnswers memoryIndex entry1 }
  if entry1.1 ≠ "" && entry1.2 ≠ "" then
    (s1, [.broadcast (.rewriteReveal memoryIndex entry1)])
  else
    (s1, sendToOther conns s1 player (.partnerRewriteReady memoryIndex))

/-- `handleLieDetectorGuess(player, round, guess, hesitationMs)`. -/
def handleLieDetectorGuess (s : RoomState) (player : PlayerId) (round : Int)
    (guess : Int) (hesitationMs : Int) : RoomState × List Send :=
  let s1 := { s with lieDetectorGuesses :=
    s.lieDetectorGuesses ++ [⟨player, round, guess, hesitationMs⟩] }
  (s1, [.broadcast (.lieDetectorResult player round guess hesitationMs)])

/-- `handleExport(sender)`: reply to sender only. -/
def handleExport (s : RoomState) (senderId : String) : RoomState × List Send :=
  (s, [.toConn senderId (.exportData (exportSession s))])

/-- `handleMessage(message, player, sender)`: the router `switch`. -/
def handleMessage (conns : List String) (s : RoomState) (m : SyncMessage)
    (player : PlayerId) (senderId : String) : RoomState × List Send :=
  match m with
  | .ready act => handleReady conns s player act
  | .answer act _ data => handleAnswer conns s player act data
  | .drawStroke points color => handleDrawStroke conns s player points color
  | .heartbeatData bpm waveform => handleHeartbeat conns s player bpm waveform
  | .shake _ => (s, [.broadcast (.shakeOut player)])
  | .typing act _ => (s, sendToOther conns s player (.typingOut act player))
  | .proximity distance => (s, sendToOther conns s player (.proximityOut distance))
  | .photo _ data => handlePhoto conns s player data
  | .heatChoice _ round choice answer =>
      handleHeatChoice conns s player round choice answer
  | .starWord _ word => handleStarWord conns s player word
  | .unsaid _ message => handleUnsaid conns s player message
  | .rewriteAnswer _ memoryIndex answer =>
      handleRewriteAnswer conns s player memoryIndex answer
  | .lieDetectorGuess _ round guess hesitationMs =>
      handleLieDetectorGuess s player round guess hesitationMs
  | .exportRequest => handleExport s senderId
  | .join _ => (s, [.toConn senderId (.error "Unknown message type")])
  | .unknownType _ => (s, [.toConn senderId (.error "Unknown message type")])

/-- A `rateLimits` map entry: `{ count: number; resetAt: number }`. -/
structure RateEntry where
  count : Nat
  resetAt : Nat
deriving DecidableEq

/-- `checkRateLimit(connectionId)`, as a function of the connection's
current map entry and the clock; returns the verdict and the entry the map
holds afterwards (the JS version mutates the entry in place, so the count
keeps growing past the limit). -/
def checkRateLimit (now : Nat) (entry : Option RateEntry) : Bool × RateEntry :=
  match entry with
  | none => (true, ⟨1, now + RATE_LIMIT_WINDOW_MS⟩)
  | some limit =>
    if now > limit.resetAt then
      (true, ⟨1, now + RATE_LIMIT_WINDOW_MS⟩)
    else
      let count := limit.count + 1
      (decide (count ≤ RATE_LIMIT_MAX_MESSAGES), ⟨count, limit.resetAt⟩)

/-- Lookup in the `rateLimits` map. -/
def lookupRate (l : List (String × RateEntry)) (id : String) :
    Option RateEntry :=
  (l.find? (fun e => e.1 = id)).map (fun e => e.2)

/-- `rateLimits.set(id, entry)`. -/
def storeRate (l : List (String × RateEntry)) (id : String) (entry : RateEntry) :
    List (String × RateEntry) :=
  if l.any (fun e => e.1 = id) then
    l.map (fun e => if e.1 = id then (id, entry) else e)
  else
    l ++ [(id, entry)]

/-- The server object: `state`, `rateLimits`, and `disconnectTimers` (a
pending timer is its slot key paired with its firing deadline). -/
structure Server where
  state : RoomState
  rateLimits : List (String × RateEntry)
  disconnectTimers : List (PlayerId × Nat)
deriving DecidableEq

/-- The freshly constructed server. -/
def initServer (startedAt : String) : Server where
  state := createInitialState startedAt
  rateLimits := []
  disconnectTimers := []

/-- `onConnect(connection)`. -/
def onConnect (conns : List String) (srv : Server) (connId : String) :
    Server × List Send :=
  if srv.state.playersP1.isSome && srv.state.playersP2.isSome then
    (srv, [.toConn connId (.error "Room is full"), .close connId])
  else
    let (s1, assignedPlayer) :=
      if srv.state.playersP1 = none then
        (srv.state.setPlayerConn .p1 (some connId), PlayerId.p1)
      else
        (srv.state.setPlayerConn .p2 (some connId), PlayerId.p2)
    let timers1 := srv.disconnectTimers.filter (fun e => e.1 ≠ assignedPlayer)
    let sends :=
      [Send.toConn connId (.playerAssigned assignedPlayer (getStateSnapshot s1))]
      ++ sendToOther conns s1 assignedPlayer (.partnerConnected assignedPlayer)
      ++ (if bothPlayersConnected s1 then [Send.broadcast .bothConnected] else [])
    ({ srv with state := s1, disconnectTimers := timers1 }, sends)

/-- `onClose(connection)`: the slot mapping is kept; only a deferred
eviction timer is scheduled (`now + DISCONNECT_TIMEOUT_MS`). -/
def onClose (conns : List String) (srv : Server) (connId : String)
    (now : Nat) : Server × List Send :=
  match getPlayerByConnection srv.state connId with
  | none => (srv, [])
  | some player =>
    let sends1 := sendToOther conns srv.state player (.partnerDisconnected player)
    let timers1 :=
      (srv.disconnectTimers.filter (fun e => e.1 ≠ player))
        ++ [(player, now + DISCONNECT_TIMEOUT_MS)]
    let srv1 := { srv with disconnectTimers := timers1 }
    if srv1.state.actPhase = .active || srv1.state.actPhase = .responding then
      let (s2, sends2) := setPhase srv1.state .waiting
      ({ srv1 with state := s2 }, sends1 ++ sends2)
    else
      (srv1, sends1)

/-- The `setTimeout` callback scheduled by `onClose`: clear the slot mapping
and drop the timer handle. -/
def fireDisconnectTimer (srv : Server) (player : PlayerId) : Server :=
  { srv with
    state := srv.state.setPlayerConn player none,
    disconnectTimers := srv.disconnectTimers.filter (fun e => e.1 ≠ player) }

/-- `'"type":"photo"'` as a character list. -/
def photoTag : List Char := "\"type\":\"photo\"".toList

/-- How `onMessage` parses a raw frame, abstracting the platform
`JSON.parse` and the `!message.type` check (both outside the repository). -/
inductive ParseOutcome where
  | invalidJson
  | missingType
  | parsed (m : SyncMessage)

/-- `onMessage(rawMessage, sender)`. The raw frame is a character list; the
platform JSON parser is the parameter `po`. -/
def onMessage (po : List Char → ParseOutcome) (conns : List String)
    (srv : Server) (senderId : String) (now : Nat) (raw : List Char) :
    Server × List Send :=
  let (allowed, entry1) := checkRateLimit now (lookupRate srv.rateLimits senderId)
  let srv1 := { srv with rateLimits := storeRate srv.rateLimits senderId entry1 }
  if !allowed then
    (srv1, [.toConn senderId (.error "Rate limited")])
  else
    let isPhoto := decide (photoTag <:+: raw)
    let maxSize := if isPhoto then MAX_PHOTO_SIZE else MAX_MESSAGE_SIZE
    if raw.length > maxSize then
      (srv1, [.toConn senderId (.error "Message too large")])
    else
      match po raw with
      | .invalidJson => (srv1, [.toConn senderId (.error "Invalid JSON")])
      | .missingType => (srv1, [.toConn senderId (.error "Missing message type")])
      | .parsed m =>
        match getPlayerByConnection srv1.state senderId with
        | none => (srv1, [.toConn senderId (.error "Not a registered player")])
        | some player =>
          let (s2, out) := handleMessage conns srv1.state m player senderId
          ({ srv1 with state := s2 }, out)

/-- Outcomes of a burst of messages from one connection: iterate
`checkRateLimit` the way `onMessage` does, threading the map entry. -/
def rlRun (entry : Option RateEntry) : List Nat → List Bool
  | [] => []
  | t :: ts =>
    let r := checkRateLimit t entry
    r.1 :: rlRun (some r.2) ts

/-- Modelled from the spec: a slot is "occupied by a live connection" when
its stored connection id matches a currently live connection
(`server.ts` itself never performs this check). -/
def specSlotLive (conns : List String) (s : RoomState) (player : PlayerId) :
    Bool :=
  match s.playerConn player with
  | some id => id ∈ conns
  | none => false

/-- Modelled from the spec: "both slots are occupied by live connections"
(the rejection condition §4.1 ascribes to `onConnect`). -/
def specBothSlotsLive (conns : List String) (s : RoomState) : Bool :=
  specSlotLive conns s .p1 && specSlotLive conns s .p2

/-- Fixture: both live connections of the sample room. -/
def connsAB : List String := ["a1", "b1"]

/-- Fixture: a room mid-session on act `know_me`, both slots bound. -/
def exKnow : RoomState := { (createInitialState "2024-01-01T00:00:00.000Z") with
  currentAct := "know_me"
  playersP1 := some "a1"
  playersP2 := some "b1" }

/-- Fixture: as `exKnow` but with a pending answer for the non-current act
`heat` from slot `p2`. -/
def exStaleHeat : RoomState :=
  { exKnow with answers := [("heat", ⟨none, some "y"⟩)] }

/-- Fixture: a server whose slot `p1` connection `a1` is disconnected inside
its grace window (timer pending, mapping retained) while `b1` is live. -/
def exGraceSrv : Server where
  state := exKnow
  rateLimits := []
  disconnectTimers := [(.p1, 300000)]

/-- Fixture: a parser stub for exercising `onMessage` paths that stop
before parsing. -/
def poReject : List Char → ParseOutcome := fun _ => .invalidJson

/-- Fixture: a server whose connection `a1` has already spent its
60-message budget in the window ending at `t = 1000`. -/
def exRateSrv : Server where
  state := exKnow
  rateLimits := [("a1", ⟨60, 1000⟩)]
  disconnectTimers := []

theorem mem_sendTo {conns : List String} {id : String} {m : OutMsg} {e : Send}
    (h : e ∈ sendTo conns id m) : e = .toConn id m := by
  unfold sendTo at h
  split at h
  · simpa using h
  · simp at h

theorem mem_sendToPlayer {conns : List String} {s : RoomState}
    {player : PlayerId} {m : OutMsg} {e : Send}
    (h : e ∈ sendToPlayer conns s player m) :
    ∃ id, s.playerConn player = some id ∧ id ∈ conns ∧ e = .toConn id m := by
  unfold sendToPlayer at h
  cases hc : s.playerConn player with
  | none => rw [hc] at h; simp at h
  | some id =>
    rw [hc] at h
    have h2 : e ∈ sendTo conns id m := h
    refine ⟨id, rfl, ?_, mem_sendTo h2⟩
    unfold sendTo at h2
    by_cases hm : id ∈ conns
    · exact hm
    · rw [if_neg hm] at h2; simp at h2

theorem mem_sendToOther {conns : List String} {s : RoomState}
    {player : PlayerId} {m : OutMsg} {e : Send}
    (h : e ∈ sendToOther conns s player m) :
    ∃ id, s.playerConn (getOtherPlayer player) = some id ∧ id ∈ conns ∧
      e = .toConn id m := by
  exact mem_sendToPlayer h

theorem sendTo_not_mem {conns : List String} {id : String} {m : OutMsg}
    (h : id ∉ conns) : sendTo conns id m = [] := by
  unfold sendTo
  split
  · exact absurd (by assumption) h
  · rfl

theorem lookupAnswers_storeAnswers (l : List (String × AnswerPair))
    (act : String) (p : AnswerPair) :
    lookupAnswers (storeAnswers l act p) act = some p := by
  induction l with
  | nil => simp [storeAnswers, lookupAnswers]
  | cons e t ih =>
    by_cases he : e.1 = act
    · simp [storeAnswers, lookupAnswers, he, List.find?]
    · by_cases ht : t.any (fun x => x.1 = act)
      · simp only [storeAnswers, List.any_cons, he, ht, decide_True,
          decide_False, Bool.false_or, if_true, List.map_cons, if_neg he] at ih ⊢
        simp only [lookupAnswers, List.find?, decide_eq_true_eq, he,
          decide_False] at ih ⊢
        simpa [he] using ih
      · simp only [storeAnswers, List.any_cons, he, ht, decide_False,
          Bool.false_or, if_false, List.cons_append] at ih ⊢
        simp only [lookupAnswers, List.find?, he, decide_False] at ih ⊢
        simpa [he] using ih

theorem anyKey_map_store (t : List (String × AnswerPair)) (act : String)
    (p : AnswerPair) :
    (t.map (fun e => if e.1 = act then (act, p) else e)).any
        (fun e => e.1 = act)
      = t.any (fun e => e.1 = act) := by
  induction t with
  | nil => rfl
  | cons e t ih =>
    by_cases he : e.1 = act <;> simp [he, ih]

theorem map_store_map_store (t : List (String × AnswerPair)) (act : String)
    (p q : AnswerPair) :
    (t.map (fun e => if e.1 = act then (act, p) else e)).map
        (fun e => if e.1 = act then (act, q) else e)
      = t.map (fun e => if e.1 = act then (act, q) else e) := by
  rw [List.map_map]
  congr 1
  funext e
  by_cases he : e.1 = act <;> simp [he]

theorem map_store_of_no_key (t : List (String × AnswerPair)) (act : String)
    (q : AnswerPair) (h : t.any (fun e => e.1 = act) = false) :
    t.map (fun e => if e.1 = act then (act, q) else e) = t := by
  induction t with
  | nil => rfl
  | cons e t ih =>
    simp only [List.any_cons, Bool.or_eq_false_iff,
      decide_eq_false_iff_not] at h
    simp [h.1, ih h.2]

theorem storeAnswers_storeAnswers (l : List (String × AnswerPair))
    (act : String) (p q : AnswerPair) :
    storeAnswers (storeAnswers l act p) act q = storeAnswers l act q := by
  unfold storeAnswers
  by_cases hl : l.any (fun e => e.1 = act)
  · rw [if_pos hl, if_pos (by rw [anyKey_map_store]; exact hl), if_pos hl]
    exact map_store_map_store l act p q
  · rw [if_neg hl, if_neg hl]
    have hone : ((l ++ [(act, p)]).any (fun e => e.1 = act)) = true := by simp
    rw [if_pos hone, List.map_append,
      map_store_of_no_key l act q (Bool.eq_false_iff.mpr hl)]
    simp

theorem handleMessage_no_size_error (conns : List String) (s : RoomState)
    (m : SyncMessage) (player : PlayerId) (senderId : String) :
    Send.toConn senderId (.error "Message too large")
      ∉ (handleMessage conns s m player senderId).2 := by
  intro h
  cases m with
  | join _ =>
    simp only [handleMessage, List.mem_singleton] at h
    simp at h
  | unknownType _ =>
    simp only [handleMessage, List.mem_singleton] at h
    simp at h
  | ready act =>
    simp only [handleMessage, handleReady, setPhase] at h
    split at h
    · simp at h
    · split at h
      · simp at h
      · obtain ⟨id, _, _, he⟩ := mem_sendToOther h
        simp at he
  | answer act _ data =>
    simp only [handleMessage, handleAnswer, setPhase] at h
    split at h
    · simp at h
    · obtain ⟨id, _, _, he⟩ := mem_sendToOther h
      simp at he
  | drawStroke points color =>
    simp only [handleMessage, handleDrawStroke] at h
    obtain ⟨id, _, _, he⟩ := mem_sendToOther h
    simp at he
  | heartbeatData bpm waveform =>
    simp only [handleMessage, handleHeartbeat, setPhase] at h
    split at h
    · simp at h
    · obtain ⟨id, _, _, he⟩ := mem_sendToOther h
      simp at he
  | shake _ =>
    simp only [handleMessage, List.mem_singleton] at h
    simp at h
  | typing act _ =>
    simp only [handleMessage] at h
    obtain ⟨id, _, _, he⟩ := mem_sendToOther h
    simp at he
  | proximity distance =>
    simp only [handleMessage] at h
    obtain ⟨id, _, _, he⟩ := mem_sendToOther h
    simp at he
  | photo _ data =>
    simp only [handleMessage, handlePhoto] at h
    obtain ⟨id, _, _, he⟩ := mem_sendToOther h
    simp at he
  | heatChoice _ round choice answer =>
    simp only [handleMessage, handleHeatChoice] at h
    obtain ⟨id, _, _, he⟩ := mem_sendToOther h
    simp at he
  | starWord _ word =>
    simp only [handleMessage, handleStarWord, setPhase] at h
    split at h
    · simp at h
    · obtain ⟨id, _, _, he⟩ := mem_sendToOther h
      simp at he
  | unsaid _ message =>
    simp only [handleMessage, handleUnsaid, setPhase] at h
    split at h
    · rcases List.mem_append.mp h with h | h
      · rcases List.mem_append.mp h with h | h
        · simp at h
        · obtain ⟨id, _, _, he⟩ := mem_sendToPlayer h
          simp at he
      · obtain ⟨id, _, _, he⟩ := mem_sendToPlayer h
        simp at he
    · obtain ⟨id, _, _, he⟩ := mem_sendToOther h
      simp at he
  | rewriteAnswer _ memoryIndex answer =>
    simp only [handleMessage, handleRewriteAnswer] at h
    split at h
    · simp at h
    · obtain ⟨id, _, _, he⟩ := mem_sendToOther h
      simp at he
  | lieDetectorGuess _ round guess hesitationMs =>
    simp only [handleMessage, handleLieDetectorGuess, List.mem_singleton] at h
    simp at h
  | exportRequest =>
    simp only [handleMessage, handleExport, List.mem_singleton] at h
    simp at h

/-- C1: claim falsified by the code (code bug). In a room with both slots
live and the phase `active`, slot A (`a1`) closing does send
`partner_disconnected` to slot B and drops the phase to `waiting` — those
parts hold — but a new connection (`a2`) arriving inside the 5-minute
grace window is rejected with "Room is full" and closed instead of being
assigned back to slot A: `onClose` keeps the slot's connection id until
the grace timer fires, and `onConnect` tests null-ness of the slot
mappings, not liveness, so reconnection inside the grace window is
impossible while the partner stays connected, although the accumulated
`perActAnswers` are still held. -/
theorem c1_grace_reconnect_rejected :
    (let srv0 := initServer "2024-01-01T00:00:00.000Z"
    let r1 := onConnect ["a1"] srv0 "a1"
    let r2 := onConnect ["a1", "b1"] r1.1 "b1"
    let s3 := (handleReady ["a1", "b1"]
      (handleReady ["a1", "b1"] r2.1.state .p1 "invitation").1
      .p2 "invitation").1
    let s4 := (handleAnswer ["a1", "b1"] s3 .p1 "invitation" (some "hi")).1
    let srv4 : Server :=
      { state := s4, rateLimits := r2.1.rateLimits,
        disconnectTimers := r2.1.disconnectTimers }
    let r5 := onClose ["b1"] srv4 "a1" 1000
    let r6 := onConnect ["b1", "a2"] r5.1 "a2"
    s4.actPhase = .active
    ∧ r5.2 = [.toConn "b1" (.partnerDisconnected .p1),
        .broadcast (.phaseChange "invitation" .waiting)]
    ∧ r5.1.state.actPhase = .waiting
    ∧ r5.1.state.playersP1 = some "a1"
    ∧ r5.1.disconnectTimers = [(.p1, 1000 + DISCONNECT_TIMEOUT_MS)]
    ∧ lookupAnswers r5.1.state.answers "invitation" = some ⟨some "hi", none⟩
    ∧ r6.2 = [.toConn "a2" (.error "Room is full"), .close "a2"]
    ∧ r6.1 = r5.1) := by
  decide

/-- C2: a `photo` message's raw payload is relayed to the other slot's
connection only and never persisted: the post-state does not depend on the
payload at all, `photos[player]` records only the derived marker
`"taken"`, and both the `state_sync` snapshot and the `export_data`
session body of the post-state equal those of the pre-state (photos appear
in neither), so no snapshot or export ever contains the payload. -/
theorem c2_photo_payload_never_persisted (conns : List String) (s : RoomState)
    (player : PlayerId) (d1 d2 : String) :
    (handlePhoto conns s player d1).1 = (handlePhoto conns s player d2).1
    ∧ ((handlePhoto conns s player d1).1).photo player = some "taken"
    ∧ getStateSnapshot (handlePhoto conns s player d1).1 = getStateSnapshot s
    ∧ exportSession (handlePhoto conns s player d1).1 = exportSession s
    ∧ ∀ e ∈ (handlePhoto conns s player d1).2, ∃ id,
        s.playerConn (getOtherPlayer player) = some id ∧
        e = .toConn id (.photoOut player d1) := by
  refine ⟨?_, ?_, ?_, ?_, ?_⟩
  · cases player <;> rfl
  · cases player <;> rfl
  · cases player <;> rfl
  · cases player <;> rfl
  · intro e he
    have he2 : e ∈ sendToOther conns s player (.photoOut player d1) := he
    obtain ⟨id, hconn, _, heq⟩ := mem_sendToOther he2
    exact ⟨id, hconn, heq⟩

/-- C2 witness: concrete run in the sample room — payload-independent
post-state, and the single emitted frame goes to the other slot's
connection `b1` carrying the payload. -/
theorem c2_photo_witness :
    (handlePhoto connsAB exKnow .p1 "payloadA").1
      = (handlePhoto connsAB exKnow .p1 "payloadB").1
    ∧ ∃ id, exKnow.playerConn (getOtherPlayer .p1) = some id ∧
        Send.toConn "b1" (.photoOut .p1 "payloadA") = .toConn id (.photoOut .p1 "payloadA") := by
  obtain ⟨h1, _, _, _, h5⟩ :=
    c2_photo_payload_never_persisted connsAB exKnow .p1 "payloadA" "payloadB"
  exact ⟨h1, h5 _ (by decide)⟩

/-- C3 counterexample: in the sample room on act `know_me`, after `p1` and
`p2` have both answered (the second answer fired the reveal), a duplicate
answer from `p1` for the already-complete pair fires the reveal broadcast
and the `phase_change` broadcast a second time — the claim says the
duplicate must not trigger them. -/
theorem c3_counterexample :
    (let r2 := handleAnswer connsAB
      (handleAnswer connsAB exKnow .p1 "know_me" (some "a")).1
      .p2 "know_me" (some "b")
    let r3 := handleAnswer connsAB r2.1 .p1 "know_me" (some "a")
    Send.broadcast (.reveal "know_me" ⟨some "a", some "b"⟩) ∈ r2.2
    ∧ r3.2 = [.broadcast (.phaseChange "know_me" .revealing),
        .broadcast (.reveal "know_me" ⟨some "a", some "b"⟩)]) := by
  decide

/-- C3 as amended: the reveal is not idempotent. Whenever the stored pair
for an act is already complete (both entries non-null), any further
non-null submission for that act fires the `phase_change` and `reveal`
broadcasts again (with the updated pair); likewise a repeated non-empty
`unsaid` submission after both slots already hold non-empty messages fires
the `phase_change` broadcast and the per-player reveals again. -/
theorem c3_duplicate_refires_reveal (conns : List String) (s : RoomState)
    (player : PlayerId) (act : String) (d : Option Data) (a b : Data)
    (hl : lookupAnswers s.answers act = some ⟨some a, some b⟩)
    (hd : d.isSome = true) :
    (handleAnswer conns s player act d).2
      = [.broadcast (.phaseChange s.currentAct .revealing),
         .broadcast (.reveal act ((AnswerPair.set ⟨some a, some b⟩) player d))]
    ∧ ∀ msg, msg ≠ "" → s.unsaid (getOtherPlayer player) ≠ "" →
        ((handleUnsaid conns s player msg).2).head?
          = some (.broadcast (.phaseChange s.currentAct .revealing)) := by
  constructor
  · unfold handleAnswer
    rw [hl]
    cases player <;> cases d <;> simp_all [AnswerPair.set, setPhase]
  · intro msg hmsg hother
    unfold handleUnsaid
    have hcond : ((s.setUnsaid player msg).unsaidP1 ≠ ""
        ∧ (s.setUnsaid player msg).unsaidP2 ≠ "") := by
      cases player <;>
        simp_all [RoomState.setUnsaid, RoomState.unsaid, getOtherPlayer]
    rw [if_pos (by
      simp only [ne_eq, Bool.and_eq_true, decide_eq_true_eq]
      exact ⟨hcond.1, hcond.2⟩)]
    simp only [setPhase, List.cons_append, List.head?_cons,
      Option.some.injEq, Send.broadcast.injEq, OutMsg.phaseChange.injEq]
    exact ⟨by cases player <;> rfl, trivial⟩

/-- C3 witness: concrete instantiation of the amended theorem in a room
whose `know_me` pair is already complete. -/
theorem c3_duplicate_witness :
    (let sDone : RoomState := { exKnow with
      answers := [("know_me", ⟨some "a", some "b"⟩)]
      unsaidP2 := "prev" }
    (handleAnswer connsAB sDone .p1 "know_me" (some "c")).2
      = [.broadcast (.phaseChange "know_me" .revealing),
         .broadcast (.reveal "know_me" ⟨some "c", some "b"⟩)]
    ∧ ((handleUnsaid connsAB sDone .p1 "dup").2).head?
        = some (.broadcast (.phaseChange "know_me" .revealing))) := by
  have h := c3_duplicate_refires_reveal connsAB
    { exKnow with
      answers := [("know_me", ⟨some "a", some "b"⟩)]
      unsaidP2 := "prev" }
    .p1 "know_me" (some "c") "a" "b" (by decide) rfl
  exact ⟨h.1, h.2 "dup" (by decide) (by decide)⟩

/-- C4 counterexample: in the sample room (current act `know_me`), an
`answer` for the non-current act `heat` is not ignored: the state changes,
the submission is stored under `answers["heat"]`, a `partner_answered`
notification is sent, and — when the other slot already has a stored
`heat` entry — it even fires a reveal for the non-current act. -/
theorem c4_counterexample :
    exKnow.currentAct ≠ "heat"
    ∧ (handleAnswer connsAB exKnow .p1 "heat" (some "x")).1 ≠ exKnow
    ∧ lookupAnswers
        ((handleAnswer connsAB exKnow .p1 "heat" (some "x")).1).answers "heat"
        = some ⟨some "x", none⟩
    ∧ (handleAnswer connsAB exKnow .p1 "heat" (some "x")).2
        = [.toConn "b1" (.partnerAnswered "heat")]
    ∧ Send.broadcast (.reveal "heat" ⟨some "x", some "y"⟩)
        ∈ (handleAnswer connsAB exStaleHeat .p1 "heat" (some "x")).2 := by
  decide

/-- C4 as amended: only `ready` is act-checked. A `ready` signal for a
non-current act is ignored with no state change and no reply, but an
`answer` submission is stored into `perActAnswers` under its own act
identifier regardless of the room's `currentAct` (and, per the
counterexample, can then fire a reveal for that non-current act). -/
theorem c4_only_ready_checks_act (conns : List String) (s : RoomState)
    (player : PlayerId) (act : String) (d : Option Data)
    (hact : act ≠ s.currentAct) :
    handleReady conns s player act = (s, [])
    ∧ lookupAnswers ((handleAnswer conns s player act d).1).answers act
        = some (((lookupAnswers s.answers act).getD ⟨none, none⟩).set player d) := by
  constructor
  · unfold handleReady
    rw [if_pos hact]
  · unfold handleAnswer
    simp only [setPhase]
    split
    · exact lookupAnswers_storeAnswers s.answers act _
    · exact lookupAnswers_storeAnswers s.answers act _

/-- C4 witness: concrete instantiation — stale `ready` is a no-op while a
stale `answer` is stored. -/
theorem c4_stale_witness :
    handleReady connsAB exKnow .p1 "heat" = (exKnow, [])
    ∧ lookupAnswers
        ((handleAnswer connsAB exKnow .p1 "heat" (some "x")).1).answers "heat"
        = some (((lookupAnswers exKnow.answers "heat").getD ⟨none, none⟩).set
            .p1 (some "x")) := by
  exact c4_only_ready_checks_act connsAB exKnow .p1 "heat" (some "x") (by decide)

/-- C5 counterexample: with slot `p1` held by the disconnected connection
`a1` inside its grace window and only `b1` live, both slots are not
occupied by live connections, yet `onConnect` rejects a new connection
`c1` with "Room is full" — so rejection is occupancy-based, not
liveness-based as claimed. -/
theorem c5_counterexample :
    specBothSlotsLive ["b1"] exGraceSrv.state = false
    ∧ onConnect ["b1"] exGraceSrv "c1"
        = (exGraceSrv, [.toConn "c1" (.error "Room is full"), .close "c1"]) := by
  decide

/-- C5 as amended: `onConnect` rejects (error frame then close, no
mutation) exactly when both slot mappings are non-null — occupancy, which
includes a disconnected connection still inside its grace window, not
liveness. Otherwise it assigns the first free slot (`p1` before `p2`),
cancels any pending disconnect timer for that slot, and its first send is
the assigned identity with a full snapshot; in particular a connection
arriving while one slot is held by a non-live connection in its grace
window and the other slot is free is assigned to the free slot, not
rejected (no close is emitted). -/
theorem c5_connect_rejects_on_occupancy (conns : List String) (srv : Server)
    (connId : String) :
    (srv.state.playersP1.isSome = true → srv.state.playersP2.isSome = true →
      onConnect conns srv connId
        = (srv, [.toConn connId (.error "Room is full"), .close connId]))
    ∧ (srv.state.playersP1 = none →
        (onConnect conns srv connId).1.state.playersP1 = some connId
        ∧ (onConnect conns srv connId).1.state.playersP2
            = srv.state.playersP2
        ∧ (∀ d, (PlayerId.p1, d)
            ∉ (onConnect conns srv connId).1.disconnectTimers)
        ∧ ((onConnect conns srv connId).2).head?
            = some (.toConn connId (.playerAssigned .p1
                (getStateSnapshot (onConnect conns srv connId).1.state)))
        ∧ Send.close connId ∉ (onConnect conns srv connId).2)
    ∧ (srv.state.playersP1.isSome = true → srv.state.playersP2 = none →
        (onConnect conns srv connId).1.state.playersP2 = some connId
        ∧ (onConnect conns srv connId).1.state.playersP1
            = srv.state.playersP1
        ∧ (∀ d, (PlayerId.p2, d)
            ∉ (onConnect conns srv connId).1.disconnectTimers)
        ∧ ((onConnect conns srv connId).2).head?
            = some (.toConn connId (.playerAssigned .p2
                (getStateSnapshot (onConnect conns srv connId).1.state)))
        ∧ Send.close connId ∉ (onConnect conns srv connId).2) := by
  refine ⟨?_, ?_, ?_⟩
  · intro h1 h2
    unfold onConnect
    rw [if_pos (by simp [h1, h2])]
  · intro h1
    unfold onConnect
    rw [if_neg (by simp [h1]), if_pos h1]
    refine ⟨rfl, rfl, ?_, rfl, ?_⟩
    · intro d hd
      rcases List.mem_filter.mp hd with ⟨_, hne⟩
      simp at hne
    · intro hmem
      rcases List.mem_append.mp hmem with hmem | hmem
      · rcases List.mem_append.mp hmem with hmem | hmem
        · simp at hmem
        · obtain ⟨id, _, _, he⟩ := mem_sendToOther hmem
          simp at he
      · revert hmem
        split <;> simp
  · intro h1 h2
    unfold onConnect
    rw [if_neg (by simp [h2]), if_neg (by simp [Option.isSome_iff_exists] at h1; obtain ⟨x, hx⟩ := h1; simp [hx])]
    refine ⟨rfl, rfl, ?_, rfl, ?_⟩
    · intro d hd
      rcases List.mem_filter.mp hd with ⟨_, hne⟩
      simp at hne
    · intro hmem
      rcases List.mem_append.mp hmem with hmem | hmem
      · rcases List.mem_append.mp hmem with hmem | hmem
        · simp at hmem
        · obtain ⟨id, _, _, he⟩ := mem_sendToOther hmem
          simp at he
      · revert hmem
        split <;> simp

/-- C5 witness: a server whose slot `p1` holds the dead connection `a1`
(grace window pending) and whose slot `p2` is free assigns an arriving
connection `c1` to the free slot `p2` without closing it. -/
theorem c5_connect_witness :
    (let srvHalf : Server :=
      { state := { exKnow with playersP2 := none }, rateLimits := [],
        disconnectTimers := [(.p1, 300000)] }
    (onConnect ["c1"] srvHalf "c1").1.state.playersP2 = some "c1"
    ∧ (onConnect ["c1"] srvHalf "c1").1.state.playersP1 = some "a1"
    ∧ Send.close "c1" ∉ (onConnect ["c1"] srvHalf "c1").2) := by
  have h := (c5_connect_rejects_on_occupancy ["c1"]
    { state := { exKnow with playersP2 := none }, rateLimits := [],
      disconnectTimers := [(.p1, 300000)] } "c1").2.2 (by decide) (by decide)
  exact ⟨h.1, h.2.1, h.2.2.2.2⟩

theorem rlRun_same_window (ts : List Nat) (c r : Nat)
    (h : ∀ t ∈ ts, t ≤ r) :
    rlRun (some ⟨c, r⟩) ts
      = (List.range ts.length).map
          (fun i => decide (c + i + 1 ≤ RATE_LIMIT_MAX_MESSAGES)) := by
  induction ts generalizing c with
  | nil => rfl
  | cons t ts ih =>
    have ht : ¬ t > r := by
      have := h t (List.mem_cons_self t ts)
      omega
    simp only [rlRun, checkRateLimit, if_neg ht]
    rw [List.length_cons, List.range_succ_eq_map, List.map_cons,
      List.map_map, ih (c + 1) (fun t htm => h t (List.mem_cons_of_mem _ htm))]
    refine congrArg₂ List.cons rfl ?_
    refine congrArg (fun f => List.map f (List.range ts.length)) ?_
    funext i
    simp only [Function.comp]
    rw [decide_eq_decide]
    omega

/-- C6: burst rate limiting. For any burst from one connection whose
messages all fall inside the 1-second window opened by its first message,
the i-th message (1-based) is admitted iff `i ≤ 60` — so of 61 messages
the first 60 pass and the 61st and all later ones fail; and whenever
`checkRateLimit` denies, `onMessage` replies "Rate limited" to the sender
only, performs no room-state mutation (only the rate counter advances),
sends nothing else and closes nothing, so the connection stays open. -/
theorem c6_rate_limit (t0 : Nat) (ts : List Nat)
    (hw : ∀ t ∈ ts, t ≤ t0 + RATE_LIMIT_WINDOW_MS) :
    rlRun none (t0 :: ts)
      = (List.range (ts.length + 1)).map
          (fun i => decide (i + 1 ≤ RATE_LIMIT_MAX_MESSAGES))
    ∧ ∀ (po : List Char → ParseOutcome) (conns : List String) (srv : Server)
        (senderId : String) (now : Nat) (raw : List Char) (entry : RateEntry),
        checkRateLimit now (lookupRate srv.rateLimits senderId)
          = (false, entry) →
        onMessage po conns srv senderId now raw
          = ({ srv with rateLimits := storeRate srv.rateLimits senderId entry },
             [.toConn senderId (.error "Rate limited")])
        ∧ (onMessage po conns srv senderId now raw).1.state = srv.state
        ∧ ∀ id, Send.close id ∉ (onMessage po conns srv senderId now raw).2 := by
  constructor
  · simp only [rlRun, checkRateLimit]
    rw [rlRun_same_window ts 1 (t0 + RATE_LIMIT_WINDOW_MS) hw,
      List.range_succ_eq_map, List.map_cons, List.map_map]
    refine congrArg₂ List.cons (by decide) ?_
    refine congrArg (fun f => List.map f (List.range ts.length)) ?_
    funext i
    simp only [Function.comp]
    rw [decide_eq_decide]
    omega
  · intro po conns srv senderId now raw entry hcr
    have heq : onMessage po conns srv senderId now raw
        = ({ srv with rateLimits := storeRate srv.rateLimits senderId entry },
           [.toConn senderId (.error "Rate limited")]) := by
      unfold onMessage
      rw [hcr]
      rfl
    refine ⟨heq, by rw [heq], ?_⟩

    intro id hmem
    rw [heq] at hmem
    simp at hmem

/-- C6 witness: a 61-message burst at time 0 admits exactly the first 60;
and on the fixture server whose budget is spent, `onMessage` replies
"Rate limited" and leaves the room state untouched. -/
theorem c6_rate_limit_witness :
    rlRun none (0 :: List.replicate 60 0)
      = List.replicate 60 true ++ [false]
    ∧ onMessage poReject ["a1", "b1"] exRateSrv "a1" 500 ['x']
        = ({ exRateSrv with
              rateLimits := storeRate exRateSrv.rateLimits "a1" ⟨61, 1000⟩ },
           [.toConn "a1" (.error "Rate limited")]) := by
  have h := c6_rate_limit 0 (List.replicate 60 0) (by decide)
  constructor
  · rw [h.1]
    decide
  · exact (h.2 poReject ["a1", "b1"] exRateSrv "a1" 500 ['x'] ⟨61, 1000⟩
      (by decide)).1

/-- C7: commutativity of "both submitted" for an act with no prior entry.
Delivering the two answers as (p1 then p2) and as (p2 then p1) yields the
same final room state, the same transition to `revealing`, and an
identical reveal broadcast fired by the second arrival whichever slot was
first; the first arrival never changes the phase. -/
theorem c7_answer_order_commutes (conns : List String) (s : RoomState)
    (act : String) (dA dB : Data)
    (hfresh : lookupAnswers s.answers act = none) :
    ((handleAnswer conns
        (handleAnswer conns s .p1 act (some dA)).1 .p2 act (some dB)).1
      = (handleAnswer conns
          (handleAnswer conns s .p2 act (some dB)).1 .p1 act (some dA)).1)
    ∧ (handleAnswer conns
        (handleAnswer conns s .p1 act (some dA)).1 .p2 act (some dB)).1.actPhase
        = .revealing
    ∧ (handleAnswer conns
        (handleAnswer conns s .p1 act (some dA)).1 .p2 act (some dB)).2
        = [.broadcast (.phaseChange s.currentAct .revealing),
           .broadcast (.reveal act ⟨some dA, some dB⟩)]
    ∧ (handleAnswer conns
        (handleAnswer conns s .p2 act (some dB)).1 .p1 act (some dA)).2
        = [.broadcast (.phaseChange s.currentAct .revealing),
           .broadcast (.reveal act ⟨some dA, some dB⟩)]
    ∧ (handleAnswer conns s .p1 act (some dA)).1.actPhase = s.actPhase
    ∧ (handleAnswer conns s .p2 act (some dB)).1.actPhase = s.actPhase := by
  have hA1 : (handleAnswer conns s .p1 act (some dA)).1
      = { s with answers := storeAnswers s.answers act ⟨some dA, none⟩ } := by
    unfold handleAnswer
    rw [hfresh]
    rfl
  have hB1 : (handleAnswer conns s .p2 act (some dB)).1
      = { s with answers := storeAnswers s.answers act ⟨none, some dB⟩ } := by
    unfold handleAnswer
    rw [hfresh]
    rfl
  have hA2 : handleAnswer conns
      { s with answers := storeAnswers s.answers act ⟨some dA, none⟩ }
      .p2 act (some dB)
      = ({ s with
            answers := storeAnswers s.answers act ⟨some dA, some dB⟩
            actPhase := .revealing },
         [.broadcast (.phaseChange s.currentAct .revealing),
          .broadcast (.reveal act ⟨some dA, some dB⟩)]) := by
    unfold handleAnswer
    rw [lookupAnswers_storeAnswers]
    simp only [setPhase]
    rw [storeAnswers_storeAnswers]
    rfl
  have hB2 : handleAnswer conns
      { s with answers := storeAnswers s.answers act ⟨none, some dB⟩ }
      .p1 act (some dA)
      = ({ s with
            answers := storeAnswers s.answers act ⟨some dA, some dB⟩
            actPhase := .revealing },
         [.broadcast (.phaseChange s.currentAct .revealing),
          .broadcast (.reveal act ⟨some dA, some dB⟩)]) := by
    unfold handleAnswer
    rw [lookupAnswers_storeAnswers]
    simp only [setPhase]
    rw [storeAnswers_storeAnswers]
    rfl
  refine ⟨?_, ?_, ?_, ?_, ?_, ?_⟩
  · rw [hA1, hA2, hB1, hB2]
  · rw [hA1, hA2]
  · rw [hA1, hA2]
  · rw [hB1, hB2]
  · rw [hA1]
  · rw [hB1]

/-- C7 witness: concrete run of both delivery orders in the sample room on
act `know_me`. -/
theorem c7_answer_order_witness :
    ((handleAnswer connsAB
        (handleAnswer connsAB exKnow .p1 "know_me" (some "a")).1
        .p2 "know_me" (some "b")).1
      = (handleAnswer connsAB
          (handleAnswer connsAB exKnow .p2 "know_me" (some "b")).1
          .p1 "know_me" (some "a")).1)
    ∧ (handleAnswer connsAB
        (handleAnswer connsAB exKnow .p1 "know_me" (some "a")).1
        .p2 "know_me" (some "b")).2
        = [.broadcast (.phaseChange "know_me" .revealing),
           .broadcast (.reveal "know_me" ⟨some "a", some "b"⟩)] := by
  have h := c7_answer_order_commutes connsAB exKnow "know_me" "a" "b" (by decide)
  exact ⟨h.1, h.2.2.1⟩

/-- C8 counterexample: in the sample room, after both slots' `ready`
signals transitioned `know_me` to `active` (clearing `readySet`), a third
redundant `ready` from `p1` is not a no-op: it changes the state
(re-adding `p1` to `readySet`) and sends a `partner_ready` frame. -/
theorem c8_counterexample :
    (let s2 := (handleReady connsAB
      (handleReady connsAB exKnow .p1 "know_me").1 .p2 "know_me").1
    s2.actPhase = .active
    ∧ handleReady connsAB s2 .p1 "know_me" ≠ (s2, [])
    ∧ (handleReady connsAB s2 .p1 "know_me").1 ≠ s2
    ∧ (handleReady connsAB s2 .p1 "know_me").2
        = [.toConn "b1" (.partnerReady "know_me")]) := by
  decide

/-- C8 as amended: with `readySet` empty, a lone `ready` for the current
act records the sender and notifies the partner without changing phase;
when the other slot is already in `readySet`, the second distinct `ready`
clears `readySet` and broadcasts the transition to `active`; but a third
redundant `ready` after the transition is not a no-op — it re-adds the
sender to the (cleared) `readySet` and sends a `partner_ready`
notification, while the phase itself stays `active`. -/
theorem c8_ready_transitions (conns : List String) (s : RoomState)
    (player : PlayerId) :
    (s.readyP1 = false → s.readyP2 = false →
      handleReady conns s player s.currentAct
        = (s.readyAdd player,
           sendToOther conns (s.readyAdd player) player
             (.partnerReady s.currentAct))
      ∧ (handleReady conns s player s.currentAct).1.actPhase = s.actPhase
      ∧ (handleReady conns s player s.currentAct).1 ≠ s)
    ∧ (s.readyHas (getOtherPlayer player) = true →
        handleReady conns s player s.currentAct
          = ({ s.readyClear with actPhase := .active },
             [.broadcast (.phaseChange s.currentAct .active)])) := by
  constructor
  · intro h1 h2
    have hbranch : handleReady conns s player s.currentAct
        = (s.readyAdd player,
           sendToOther conns (s.readyAdd player) player
             (.partnerReady s.currentAct)) := by
      unfold handleReady
      rw [if_neg (by simp)]
      rw [if_neg (by cases player <;>
        simp [RoomState.readyAdd, RoomState.readyHas, h1, h2])]
    refine ⟨hbranch, by rw [hbranch]; cases player <;> rfl, ?_⟩
    rw [hbranch]
    intro hcontra
    cases player
    · have : s.readyP1 = true := by rw [← hcontra]; rfl
      simp [h1] at this
    · have : s.readyP2 = true := by rw [← hcontra]; rfl
      simp [h2] at this
  · intro hother
    unfold handleReady
    rw [if_neg (by simp)]
    rw [if_pos (by cases player <;>
      simp_all [RoomState.readyAdd, RoomState.readyHas, getOtherPlayer])]
    cases player <;> simp [setPhase, RoomState.readyAdd, RoomState.readyClear]

/-- C8 witness: concrete instantiation — a lone `ready` from `p1` in the
sample room only notifies `b1`, and with `p1` already ready a `ready` from
`p2` fires the transition broadcast to `active`. -/
theorem c8_ready_witness :
    (handleReady connsAB exKnow .p1 "know_me"
      = (exKnow.readyAdd .p1,
         sendToOther connsAB (exKnow.readyAdd .p1) .p1 (.partnerReady "know_me"))
    ∧ (handleReady connsAB exKnow .p1 "know_me").1.actPhase = exKnow.actPhase)
    ∧ handleReady connsAB { exKnow with readyP1 := true } .p2 "know_me"
        = ({ { exKnow with readyP1 := true }.readyClear with actPhase := .active },
           [.broadcast (.phaseChange "know_me" .active)]) := by
  have h1 := (c8_ready_transitions connsAB exKnow .p1).1 rfl rfl
  have h2 := (c8_ready_transitions connsAB { exKnow with readyP1 := true } .p2).2 rfl
  exact ⟨⟨h1.1, h1.2.1⟩, h2⟩

/-- C9: the size guard classifies an inbound raw frame as a photo frame —
granting the 1 MB ceiling instead of the 10 KB one — iff the raw text
contains the exact substring `"type":"photo"`; consequently, whenever the
rate limiter admits the frame, `onMessage` emits the "Message too large"
error exactly when the frame's length exceeds the ceiling selected by that
substring test, so a non-photo frame embedding the substring is measured
against 1 MB while a photo frame serialized with different whitespace is
measured against only 10 KB. -/
theorem c9_size_guard_substring (po : List Char → ParseOutcome)
    (conns : List String) (srv : Server) (senderId : String) (now : Nat)
    (raw : List Char)
    (hrate : (checkRateLimit now
      (lookupRate srv.rateLimits senderId)).1 = true) :
    (Send.toConn senderId (.error "Message too large")
        ∈ (onMessage po conns srv senderId now raw).2)
      ↔ raw.length >
          (if photoTag <:+: raw then MAX_PHOTO_SIZE else MAX_MESSAGE_SIZE) := by
  unfold onMessage
  cases hcr : checkRateLimit now (lookupRate srv.rateLimits senderId) with
  | mk allowed entry =>
    rw [hcr] at hrate
    cases allowed with
    | false => exact absurd hrate (by simp)
    | true =>
      simp only [Bool.not_true, Bool.false_eq_true, if_false,
        decide_eq_true_eq]
      split <;>
      · split
        · rename_i hsz2
          simpa using hsz2
        · rename_i hsz2
          refine iff_of_false ?_ hsz2
          cases hpo : po raw with
          | invalidJson => simp
          | missingType => simp
          | parsed m =>
            cases hgp : getPlayerByConnection srv.state senderId with
            | none => simp
            | some player =>
              intro hmem
              exact handleMessage_no_size_error conns srv.state m player
                senderId hmem

/-- C9 witness: the guard's characterization at a concrete small frame
(admitted by a fresh rate counter), plus a concrete non-photo frame whose
nested object makes the raw text contain the exact tag — so it is
classified photo — and a whitespace-variant photo frame that is not. -/
theorem c9_size_guard_witness :
    ((Send.toConn "a1" (.error "Message too large")
        ∈ (onMessage poReject ["a1"] (initServer "t0") "a1" 0
            ("hello".toList)).2)
      ↔ ("hello".toList).length >
          (if photoTag <:+: "hello".toList then MAX_PHOTO_SIZE
           else MAX_MESSAGE_SIZE))
    ∧ photoTag <:+:
        ("\x7b\"type\":\"shake\",\"pic\":\x7b\"type\":\"photo\"\x7d\x7d".toList)
    ∧ ¬ photoTag <:+: ("\x7b\"type\": \"photo\"\x7d".toList) := by
  refine ⟨c9_size_guard_substring poReject ["a1"] (initServer "t0") "a1" 0
    ("hello".toList) (by decide), by decide, by decide⟩

/-- C10: a targeted send whose stored connection id has no matching live
connection is silently discarded — the send produces no output at all
(never queued, retried, or reported) — and in particular, when both
`unsaid` messages are in and the partner slot's stored connection is not
live, the per-player `unsaid_reveal` addressed to the partner is dropped
while the phase transition to `revealing` (and its broadcast) still takes
effect. -/
theorem c10_dead_target_dropped (conns : List String) (cid : String)
    (m : OutMsg) (s : RoomState) (player : PlayerId) (msg : String)
    (oid : String)
    (hcid : cid ∉ conns)
    (hmsg : msg ≠ "")
    (hother : s.unsaid (getOtherPlayer player) ≠ "")
    (hoconn : s.playerConn (getOtherPlayer player) = some oid)
    (hdead : oid ∉ conns) :
    sendTo conns cid m = []
    ∧ (handleUnsaid conns s player msg).1.actPhase = .revealing
    ∧ ((handleUnsaid conns s player msg).2).head?
        = some (.broadcast (.phaseChange s.currentAct .revealing))
    ∧ ∀ m2, Send.toConn oid m2 ∉ (handleUnsaid conns s player msg).2 := by
  have hcond : ((s.setUnsaid player msg).unsaidP1 ≠ ""
      ∧ (s.setUnsaid player msg).unsaidP2 ≠ "") := by
    cases player <;>
      simp_all [RoomState.setUnsaid, RoomState.unsaid, getOtherPlayer]
  have hbranch : handleUnsaid conns s player msg
      = (let s2 : RoomState :=
          { s.setUnsaid player msg with actPhase := .revealing }
        (s2, [Send.broadcast (.phaseChange (s.setUnsaid player msg).currentAct
            .revealing)]
          ++ sendToPlayer conns s2 .p1 (.unsaidReveal s2.unsaidP2)
          ++ sendToPlayer conns s2 .p2 (.unsaidReveal s2.unsaidP1))) := by
    unfold handleUnsaid
    rw [if_pos (by
      simp only [ne_eq, Bool.and_eq_true, decide_eq_true_eq]
      exact ⟨hcond.1, hcond.2⟩)]
    rfl
  refine ⟨sendTo_not_mem hcid, ?_, ?_, ?_⟩
  · rw [hbranch]
  · rw [hbranch]
    cases player <;> rfl
  · intro m2 hmem
    rw [hbranch] at hmem
    rcases List.mem_append.mp hmem with hmem | hmem
    · rcases List.mem_append.mp hmem with hmem | hmem
      · simp at hmem
      · obtain ⟨id, hpc, hlive, heq⟩ := mem_sendToPlayer hmem
        rw [Send.toConn.injEq] at heq
        exact hdead (heq.1 ▸ hlive)
    · obtain ⟨id, hpc, hlive, heq⟩ := mem_sendToPlayer hmem
      rw [Send.toConn.injEq] at heq
      exact hdead (heq.1 ▸ hlive)

/-- C10 witness: with partner `p1` (connection `a1`) dead and only `b1`
live, `p2` completing the `unsaid` pair still flips the phase to
`revealing`, while no frame is addressed to `a1`. -/
theorem c10_dead_target_witness :
    sendTo ["b1"] "a1" (.unsaidReveal "m") = []
    ∧ (handleUnsaid ["b1"] { exKnow with unsaidP1 := "from p1" }
        .p2 "from p2").1.actPhase = .revealing
    ∧ Send.toConn "a1" (.unsaidReveal "from p2")
        ∉ (handleUnsaid ["b1"] { exKnow with unsaidP1 := "from p1" }
            .p2 "from p2").2 := by
  have h := c10_dead_target_dropped ["b1"] "a1" (.unsaidReveal "m")
    { exKnow with unsaidP1 := "from p1" } .p2 "from p2" "a1"
    (by decide) (by decide) (by decide) (by decide) (by decide)
  exact ⟨h.1, h.2.1, h.2.2.2 _⟩
